import Mathlib

/-!
Verification of the `serde_with` schemars 0.8 integration module
(`src/serde_with/src/schemars_0_8.rs`).

The module synthesizes JSON Schema documents for serialization adapters.
We shallowly embed the schema data model of the host library
(`schemars 0.8`'s `Schema` / `SchemaObject` types, of which this module
constructs and inspects the fields listed below) and translate each
schema-building operation of the source file into a Lean function.
Generator state (`&mut SchemaGenerator`) is modelled by explicit state
passing: a Rust `fn f(gen: &mut SchemaGenerator) -> Schema` becomes a Lean
function `SchemaGenerator → Schema × SchemaGenerator`.

Floating-point schema bounds (`f64` in the source) are modelled as `Rat`:
the module only ever writes the exact values `0.0` and `1.0`.
-/

/-- The seven JSON Schema instance types of `schemars 0.8`'s `InstanceType`. -/
inductive InstanceType where
  | null
  | boolean
  | object
  | array
  | number
  | string
  | integer
deriving DecidableEq, Repr

/-- Model of `schemars 0.8`'s `SingleOrVec<T>`. The source only ever builds
the `Single` variant (via `.into()` on a single value). -/
inductive SingleOrVec (α : Type) where
  | single (x : α)
  | vec (xs : List α)
deriving DecidableEq, Repr

/-- Model of `schemars 0.8`'s `Metadata`. The fields typed `serde_json::Value`
in the host library (`default`, `examples`) are never constructed nor
inspected by the embedded module and are omitted. -/
structure Metadata where
  id : Option String := none
  title : Option String := none
  description : Option String := none
  deprecated : Bool := false
  read_only : Bool := false
  write_only : Bool := false
deriving DecidableEq, Repr

/-- Model of `schemars 0.8`'s `NumberValidation`. Bounds are `f64` in the
host library; the embedded module only writes `0.0` and `1.0`, modelled
exactly by `Rat`. -/
structure NumberValidation where
  multiple_of : Option Rat := none
  maximum : Option Rat := none
  exclusive_maximum : Option Rat := none
  minimum : Option Rat := none
  exclusive_minimum : Option Rat := none
deriving DecidableEq, Repr

/-- Model of `schemars 0.8`'s `StringValidation`. -/
structure StringValidation where
  max_length : Option Nat := none
  min_length : Option Nat := none
  pattern : Option String := none
deriving DecidableEq, Repr

/-- Model of `schemars 0.8`'s `SubschemaValidation`, parametrized by the
schema type to allow the nested-inductive knot below. -/
structure SubschemaValidationF (S : Type) where
  all_of : Option (List S) := none
  any_of : Option (List S) := none
  one_of : Option (List S) := none
  not : Option S := none
  if_schema : Option S := none
  then_schema : Option S := none
  else_schema : Option S := none

/-- Model of `schemars 0.8`'s `ArrayValidation`, parametrized by the schema
type. `max_items`/`min_items` are `u32` in the host library; they are
modelled as `Nat`, with the `u32` range check made explicit at the single
place the source performs it (`N.try_into()`). -/
structure ArrayValidationF (S : Type) where
  items : Option (SingleOrVec S) := none
  additional_items : Option S := none
  max_items : Option Nat := none
  min_items : Option Nat := none
  unique_items : Option Bool := none
  contains : Option S := none

/-- Model of `schemars 0.8`'s `ObjectValidation`, parametrized by the schema
type. Maps become association lists, the set of required properties a list. -/
structure ObjectValidationF (S : Type) where
  max_properties : Option Nat := none
  min_properties : Option Nat := none
  required : List String := []
  properties : List (String × S) := []
  pattern_properties : List (String × S) := []
  additional_properties : Option S := none
  property_names : Option S := none

/-- Model of `schemars 0.8`'s `SchemaObject`, parametrized by the schema
type. The fields typed `serde_json::Value` in the host library
(`enum_values`, `const_value`, `extensions`) are never constructed nor
inspected by the embedded module and are omitted. -/
structure SchemaObjectF (S : Type) where
  metadata : Option Metadata := none
  instance_type : Option (SingleOrVec InstanceType) := none
  format : Option String := none
  subschemas : Option (SubschemaValidationF S) := none
  number : Option NumberValidation := none
  string : Option StringValidation := none
  array : Option (ArrayValidationF S) := none
  object : Option (ObjectValidationF S) := none
  reference : Option String := none

/-- Model of `schemars 0.8`'s `Schema`: either a boolean schema or a schema
object. -/
inductive Schema where
  | bool (b : Bool)
  | obj (o : SchemaObjectF Schema)

/-- A schema object whose subschemas are full schemas. -/
abbrev SchemaObject := SchemaObjectF Schema

/-- Model of `schemars 0.8`'s `Schema::into_object`: a boolean `true` schema
becomes the empty object, `false` becomes `not: emptyObject`, and an object
schema is returned unchanged. -/
def Schema.into_object : Schema → SchemaObject
  | Schema.obj o => o
  | Schema.bool true => {}
  | Schema.bool false => { subschemas := some { not := some (Schema.obj {}) } }

/-- Model of `schemars 0.8`'s `SchemaObject::metadata()` followed by a field
write, as used by `number.metadata().write_only = true` in the source:
inserts a default `Metadata` when absent, then sets `write_only`. -/
def SchemaObject.withWriteOnly (o : SchemaObject) : SchemaObject :=
  { o with metadata := some { (o.metadata.getD {}) with write_only := true } }

/-- Model of the external `schemars 0.8` `SchemaGenerator` state this module
receives by `&mut` reference: the definitions table (keyed by schema name)
and the settings' definitions path. -/
structure SchemaGenerator where
  definitions : List (String × Schema) := []
  definitions_path : String := "#/definitions/"

/-- Model of `schemars 0.8`'s `Schema::new_ref`: a schema object whose only
set field is `$ref`. -/
def Schema.new_ref (reference : String) : Schema :=
  Schema.obj { reference := some reference }

/-! Accessors used to state the claims. They read single fields of a schema
document. -/

/-- The single instance type of a schema object, when one is set. -/
def Schema.instanceKind : Schema → Option InstanceType
  | Schema.obj o =>
    match o.instance_type with
    | some (SingleOrVec.single t) => some t
    | _ => none
  | _ => none

/-- The write-only metadata flag of a schema (false when no metadata). -/
def Schema.writeOnlyFlag : Schema → Bool
  | Schema.obj o => (o.metadata.getD {}).write_only
  | _ => false

/-- The list of "one of" alternatives of a schema, when set. -/
def Schema.oneOfAlts : Schema → Option (List Schema)
  | Schema.obj o =>
    match o.subschemas with
    | some ss => ss.one_of
    | none => none
  | _ => none

/-- The list of "any of" alternatives of a schema, when set. -/
def Schema.anyOfAlts : Schema → Option (List Schema)
  | Schema.obj o =>
    match o.subschemas with
    | some ss => ss.any_of
    | none => none
  | _ => none

/-- The numeric minimum of a schema, when set. -/
def Schema.numericMinimum : Schema → Option Rat
  | Schema.obj o =>
    match o.number with
    | some nv => nv.minimum
    | none => none
  | _ => none

/-- The numeric maximum of a schema, when set. -/
def Schema.numericMaximum : Schema → Option Rat
  | Schema.obj o =>
    match o.number with
    | some nv => nv.maximum
    | none => none
  | _ => none

/-- The numeric validation block of a schema, when set. -/
def Schema.numberValidation : Schema → Option NumberValidation
  | Schema.obj o => o.number
  | _ => none

/-- The item schema of a schema's array validation, when set. -/
def Schema.arrayItems : Schema → Option (SingleOrVec Schema)
  | Schema.obj o =>
    match o.array with
    | some av => av.items
    | none => none
  | _ => none

/-- The maximum item count of a schema's array validation, when set. -/
def Schema.arrayMaxItems : Schema → Option Nat
  | Schema.obj o =>
    match o.array with
    | some av => av.max_items
    | none => none
  | _ => none

/-- The minimum item count of a schema's array validation, when set. -/
def Schema.arrayMinItems : Schema → Option Nat
  | Schema.obj o =>
    match o.array with
    | some av => av.min_items
    | none => none
  | _ => none

/-- The minimum of the first "one of" alternative of a schema, when both are
set. Used to separate two flexible timespan documents. -/
def Schema.firstOneOfMinimum (s : Schema) : Option Rat :=
  match s.oneOfAlts with
  | some (a :: _) => a.numericMinimum
  | _ => none

/-! The adapter implementations translated from the source file. A Rust
`json_schema(gen: &mut SchemaGenerator) -> Schema` becomes
`SchemaGenerator → Schema × SchemaGenerator`; calls the source makes into
the generator (`gen.subschema_for::<X>()`) are abstracted as a function
argument `sub : SchemaGenerator → Schema × SchemaGenerator`, since the
requested type's schema is supplied by the external host library. -/

/-- Model of one `JsonSchema` implementation of the host library: the four
operations of the describable-type trait. -/
structure JsonSchemaImpl where
  is_referenceable : Bool
  schema_name : String
  schema_id : String
  json_schema : SchemaGenerator → Schema × SchemaGenerator

/-- Model of one `JsonSchemaAs<T>` implementation of this module: the same
four operations (source lines 97-131). -/
structure JsonSchemaAsImpl where
  is_referenceable : Bool
  schema_name : String
  schema_id : String
  json_schema : SchemaGenerator → Schema × SchemaGenerator

/-- The proxy impl `JsonSchema for WrapSchema<T, TA>` (source lines 133-153):
every operation forwards to the adapter's `JsonSchemaAs<T>` operation. -/
def wrapSchemaImpl (ta : JsonSchemaAsImpl) : JsonSchemaImpl where
  is_referenceable := ta.is_referenceable
  schema_name := ta.schema_name
  schema_id := ta.schema_id
  json_schema := ta.json_schema

/-- The `forward_schema!` macro (source lines 158-176): an adapter whose four
operations all delegate to a forwarding target's `JsonSchema` impl. -/
def forwardSchemaImpl (fwd : JsonSchemaImpl) : JsonSchemaAsImpl where
  is_referenceable := fwd.is_referenceable
  schema_name := fwd.schema_name
  schema_id := fwd.schema_id
  json_schema := fwd.json_schema

/-- The default `JsonSchemaAs::is_referenceable` (source lines 104-106). -/
def jsonSchemaAs_default_is_referenceable : Bool := true

/-- The default `JsonSchemaAs::schema_id` (source lines 120-122): the value
of `schema_name`. -/
def jsonSchemaAs_default_schema_id (schema_name : String) : String :=
  schema_name

/-! Fixed-size array adapter, `impl JsonSchemaAs<[T; N]> for [TA; N]`
(source lines 272-306). Lengths are `usize` (modelled as `Nat`); the
generator's length type is `u32`, so `N.try_into()` succeeds exactly when
`N ≤ u32::MAX`. -/

/-- The value of `u32::MAX`, i.e. `2^32 - 1`. -/
def u32_MAX : Nat := 4294967295

/-- `[TA; N]::schema_name` (source lines 276-278): interpolates the element
schema name and the length into `"[{}; {}]"`. -/
def fixedArray_schema_name (elemName : String) (n : Nat) : String :=
  "[" ++ elemName ++ "; " ++ Nat.repr n ++ "]"

/-- `[TA; N]::schema_id` (source lines 280-282): interpolates the element
schema id and the length into `"[{}; {}]"`. -/
def fixedArray_schema_id (elemId : String) (n : Nat) : String :=
  "[" ++ elemId ++ "; " ++ Nat.repr n ++ "]"

/-- `[TA; N]::json_schema` (source lines 284-301). `sub` models the call
`gen.subschema_for::<WrapSchema<T, TA>>()`. -/
def fixedArray_json_schema (sub : SchemaGenerator → Schema × SchemaGenerator)
    (n : Nat) (g : SchemaGenerator) : Schema × SchemaGenerator :=
  let maxmin : Option Nat × Option Nat :=
    if n ≤ u32_MAX then (some n, some n) else (none, some u32_MAX)
  let item := sub g
  (Schema.obj
    { instance_type := some (SingleOrVec.single InstanceType.array)
      array := some
        { items := some (SingleOrVec.single item.1)
          max_items := maxmin.1
          min_items := maxmin.2 } },
   item.2)

/-- `[TA; N]::is_referenceable` (source lines 303-305). -/
def fixedArray_is_referenceable : Bool := false

/-! Boolean-as-integer adapters, `impl JsonSchemaAs<bool> for
BoolFromInt<Strict>` (source lines 368-393) and `... for
BoolFromInt<Flexible>` (source lines 395-415). -/

/-- `BoolFromInt<Strict>::schema_name` (source lines 369-371). -/
def boolFromIntStrict_schema_name : String := "BoolFromInt<Strict>"

/-- `BoolFromInt<Strict>::schema_id` (source lines 373-375). -/
def boolFromIntStrict_schema_id : String := "serde_with::BoolFromInt<Strict>"

/-- `BoolFromInt<Strict>::json_schema` (source lines 377-388): an integer
schema with inclusive bounds 0 and 1. The generator argument is ignored. -/
def boolFromIntStrict_json_schema (g : SchemaGenerator) :
    Schema × SchemaGenerator :=
  (Schema.obj
    { instance_type := some (SingleOrVec.single InstanceType.integer)
      number := some { minimum := some 0, maximum := some 1 } },
   g)

/-- `BoolFromInt<Strict>::is_referenceable` (source lines 390-392). -/
def boolFromIntStrict_is_referenceable : Bool := false

/-- `BoolFromInt<Flexible>::schema_name` (source lines 396-398). -/
def boolFromIntFlexible_schema_name : String := "BoolFromInt<Flexible>"

/-- `BoolFromInt<Flexible>::schema_id` (source lines 400-402). -/
def boolFromIntFlexible_schema_id : String :=
  "serde_with::BoolFromInt<Flexible>"

/-- `BoolFromInt<Flexible>::json_schema` (source lines 404-410): an integer
schema with no further validation. The generator argument is ignored. -/
def boolFromIntFlexible_json_schema (g : SchemaGenerator) :
    Schema × SchemaGenerator :=
  (Schema.obj { instance_type := some (SingleOrVec.single InstanceType.integer) },
   g)

/-- `BoolFromInt<Flexible>::is_referenceable` (source lines 412-414). -/
def boolFromIntFlexible_is_referenceable : Bool := false

/-! Bytes-or-string adapter, `impl JsonSchemaAs<Vec<u8>> for BytesOrString`
(source lines 429-463). -/

/-- `BytesOrString::schema_name` (source lines 430-432). -/
def bytesOrString_schema_name : String := "BytesOrString"

/-- `BytesOrString::schema_id` (source lines 434-436). -/
def bytesOrString_schema_id : String := "serde_with::BytesOrString"

/-- `BytesOrString::json_schema` (source lines 438-458): an "any of" union
of the byte-array schema requested from the generator
(`gen.subschema_for::<Vec<u8>>()`, modelled by `sub`) and a write-only
string schema. -/
def bytesOrString_json_schema (sub : SchemaGenerator → Schema × SchemaGenerator)
    (g : SchemaGenerator) : Schema × SchemaGenerator :=
  let bytes := sub g
  (Schema.obj
    { subschemas := some
        { any_of := some
            [bytes.1,
             Schema.obj
               { instance_type := some (SingleOrVec.single InstanceType.string)
                 metadata := some { write_only := true } }] } },
   bytes.2)

/-- `BytesOrString::is_referenceable` (source lines 460-462). -/
def bytesOrString_is_referenceable : Bool := false

/-! Set "last value wins" adapter, `impl JsonSchemaAs<T> for
SetLastValueWins<TA>` (source lines 555-590). -/

/-- `SetLastValueWins<TA>::schema_id` (source lines 559-565): interpolates
the element schema id. -/
def setLastValueWins_schema_id (elemId : String) : String :=
  "serde_with::SetLastValueWins<" ++ elemId ++ ">"

/-- `SetLastValueWins<TA>::schema_name` (source lines 567-572): interpolates
the element schema name. -/
def setLastValueWins_schema_name (elemName : String) : String :=
  "SetLastValueWins<" ++ elemName ++ ">"

/-- `SetLastValueWins<TA>::json_schema` (source lines 574-585): computes the
underlying sequence schema `<WrapSchema<T, TA> as JsonSchema>::json_schema`
(modelled by `elemSchema`), converts it to an object, and clears
`unique_items` of its array validation when one is present. -/
def setLastValueWins_json_schema
    (elemSchema : SchemaGenerator → Schema × SchemaGenerator)
    (g : SchemaGenerator) : Schema × SchemaGenerator :=
  let r := elemSchema g
  let o := r.1.into_object
  let o' :=
    match o.array with
    | some av => { o with array := some { av with unique_items := none } }
    | none => o
  (Schema.obj o', r.2)

/-- `SetLastValueWins<TA>::is_referenceable` (source lines 587-589). -/
def setLastValueWins_is_referenceable : Bool := false

/-! Timespan family (source lines 613-757). The `TimespanSchemaTarget<F>`
trait associates a (target type, wire format) pair with two compile-time
constants `SIGNED` and `STRING`. -/

/-- The timespan target types declared in the source without a feature gate
(`Duration` and `SystemTime`, source lines 645-660). The `chrono_0_4` and
`time_0_3` targets are behind disabled cargo features and are not part of
the compiled module. -/
inductive TimespanTarget where
  | duration
  | systemTime
deriving DecidableEq, Repr

/-- The wire formats a timespan target may be classified against in the
source (`u64`, `i64`, `f64`, `String`). -/
inductive TimespanFormat where
  | u64
  | i64
  | f64
  | string
deriving DecidableEq, Repr

/-- The `TimespanSchemaTarget<F>` impls (source lines 645-660) as a lookup:
`some (SIGNED, STRING)` for each declared (target, format) pair, `none` for
pairs with no impl. `Duration` declares `SIGNED = false` explicitly for all
three of its formats; `SystemTime` is declared through
`declare_timespan_target!` and keeps the trait default `SIGNED = true`
(source line 620), with `STRING` given by the `is_string!` macro. -/
def timespanSchemaTarget : TimespanTarget → TimespanFormat → Option (Bool × Bool)
  | TimespanTarget.duration, TimespanFormat.u64 => some (false, false)
  | TimespanTarget.duration, TimespanFormat.f64 => some (false, false)
  | TimespanTarget.duration, TimespanFormat.string => some (false, true)
  | TimespanTarget.systemTime, TimespanFormat.i64 => some (true, false)
  | TimespanTarget.systemTime, TimespanFormat.f64 => some (true, false)
  | TimespanTarget.systemTime, TimespanFormat.string => some (true, true)
  | _, _ => none

/-- `flexible_timespan_schema` (source lines 695-726): a "one of" union of a
number schema and a string schema; the number schema carries `minimum = 0`
exactly when the quantity is unsigned; the alternative that is not the
default representation is marked write-only. -/
def flexible_timespan_schema (signed is_string : Bool) : Schema :=
  let number : SchemaObject :=
    { instance_type := some (SingleOrVec.single InstanceType.number)
      number := if signed then none else some { minimum := some 0 } }
  let str : SchemaObject :=
    { instance_type := some (SingleOrVec.single InstanceType.string) }
  let number := if is_string then number.withWriteOnly else number
  let str := if is_string then str else str.withWriteOnly
  Schema.obj
    { subschemas := some { one_of := some [Schema.obj number, Schema.obj str] } }

/-- `Timespan<F, Flexible>::schema_name` (source lines 733-738), selected by
the target's `STRING` constant. -/
def timespanFlexible_schema_name (isString : Bool) : String :=
  match isString with
  | true => "FlexibleStringTimespan"
  | false => "FlexibleTimespan"

/-- `Timespan<F, Flexible>::schema_id` (source lines 740-745), selected by
the target's `STRING` constant. -/
def timespanFlexible_schema_id (isString : Bool) : String :=
  match isString with
  | true => "serde_with::FlexibleStringTimespan"
  | false => "serde_with::FlexibleTimespan"

/-- `Timespan<F, Flexible>::json_schema` (source lines 747-752): applies
`flexible_timespan_schema` to the target's `SIGNED` and `STRING` constants.
The generator argument is ignored. -/
def timespanFlexible_json_schema (signed isString : Bool)
    (g : SchemaGenerator) : Schema × SchemaGenerator :=
  (flexible_timespan_schema signed isString, g)

/-- `Timespan<F, Flexible>::is_referenceable` (source lines 754-756). -/
def timespanFlexible_is_referenceable : Bool := false

/-! Registry integration (claim about the external generator). -/

/-- Modelled from the spec: the external `schemars 0.8` byte-array document
returned by `gen.subschema_for::<Vec<u8>>()` — an array schema of unsigned
8-bit integers, carrying no write-only flag. Used only to instantiate the
abstract generator call of `BytesOrString::json_schema` at a concrete
input. -/
def vecU8Schema : Schema :=
  Schema.obj
    { instance_type := some (SingleOrVec.single InstanceType.array)
      array := some
        { items := some (SingleOrVec.single (Schema.obj
            { instance_type := some (SingleOrVec.single InstanceType.integer)
              format := some "uint8"
              number := some { minimum := some 0, maximum := some 255 } })) } }

/-- Modelled from the spec: one adapter binding as the external generator
sees it — its schema name (the key under the definitions table), its
referenceability policy, the list of sub-bindings its synthesis requests
from the generator, and how it assembles its document from the returned
sub-schemas. -/
structure BindingEnv (β : Type) where
  name : β → String
  referenceable : β → Bool
  subRequests : β → List β
  build : β → List Schema → Schema

/-- Modelled from the spec: the pointer-style reference the generator emits
for a registered identity (`"$ref": "#/definitions/<name>"`). -/
def refSchemaFor (g : SchemaGenerator) (nm : String) : Schema :=
  Schema.new_ref (g.definitions_path ++ nm)

mutual

/-- Modelled from the spec: the external generator's `subschema_for`
(§6 of the spec, not part of this repository's source). For a
non-referenceable binding the document is inlined by invoking synthesis.
For a referenceable binding, an identity already present in the definitions
table yields a reference immediately, without invoking synthesis; otherwise
the identity is registered first (recursion guard), synthesis is invoked —
which may re-enter `subschemaFor` for sub-bindings — and the computed
document replaces the placeholder. `fuel` bounds the recursion depth;
`none` means the fuel ran out. -/
def subschemaFor {β : Type} (env : BindingEnv β) :
    Nat → β → SchemaGenerator → Option (Schema × SchemaGenerator)
  | 0, _, _ => none
  | fuel + 1, b, g =>
    if env.referenceable b then
      let nm := env.name b
      if (g.definitions.lookup nm).isSome then
        some (refSchemaFor g nm, g)
      else
        let g1 : SchemaGenerator :=
          { g with definitions := (nm, Schema.bool false) :: g.definitions }
        match synthSubschemas env fuel (env.subRequests b) g1 with
        | none => none
        | some (subs, g2) =>
          some (refSchemaFor g nm,
                { g2 with definitions := (nm, env.build b subs) :: g2.definitions })
    else
      match synthSubschemas env fuel (env.subRequests b) g with
      | none => none
      | some (subs, g2) => some (env.build b subs, g2)
  termination_by fuel => (fuel, 0)

/-- Modelled from the spec: synthesis of one binding's document — each
sub-binding's schema is requested from the generator in order, threading the
definitions table through the calls. -/
def synthSubschemas {β : Type} (env : BindingEnv β) :
    Nat → List β → SchemaGenerator → Option (List Schema × SchemaGenerator)
  | _, [], g => some ([], g)
  | fuel, b :: bs, g =>
    match subschemaFor env fuel b g with
    | none => none
    | some (s, g1) =>
      match synthSubschemas env fuel bs g1 with
      | none => none
      | some (ss, g2) => some (s :: ss, g2)
  termination_by fuel bs => (fuel, bs.length + 1)

end

/-- One step of decoding a decimal digit string back to a number; used to
show that the decimal representation interpolated into composite schema ids
is injective. -/
def decodeStep (acc : Nat) (c : Char) : Nat := acc * 10 + (c.toNat - 48)

/-- A concrete self-referential binding: its synthesis requests its own
schema from the generator and places the result as its array item schema.
Used to instantiate the recursion-guard claim at a concrete input. -/
inductive RecBinding where
  | node
deriving DecidableEq, Repr

/-- The binding environment of the single self-referential binding. -/
def recBindingEnv : BindingEnv RecBinding where
  name := fun _ => "Node"
  referenceable := fun _ => true
  subRequests := fun _ => [RecBinding.node]
  build := fun _ subs =>
    Schema.obj
      { instance_type := some (SingleOrVec.single InstanceType.array)
        array := some { items := some (SingleOrVec.vec subs) } }

/-! Helper lemmas about the decimal representation `Nat.repr`, needed for
the injectivity of the composite schema ids that interpolate a length. -/

/-- `Nat.toDigitsCore` only uses its accumulator as a suffix. -/
theorem toDigitsCore_append (b : Nat) :
    ∀ (f n : Nat) (ds : List Char),
      Nat.toDigitsCore b f n ds = Nat.toDigitsCore b f n [] ++ ds := by
  intro f
  induction f with
  | zero => intro n ds; simp [Nat.toDigitsCore]
  | succ f ih =>
    intro n ds
    simp only [Nat.toDigitsCore]
    by_cases h : n / b = 0
    · simp [h]
    · simp only [h, if_false]
      rw [ih (n / b) (Nat.digitChar (n % b) :: ds),
          ih (n / b) [Nat.digitChar (n % b)]]
      simp

/-- Any sufficient fuel computes the same digits as the canonical `n + 1`. -/
theorem toDigitsCore_fuel (b : Nat) (hb : 2 ≤ b) :
    ∀ (n f : Nat) (ds : List Char), n < f →
      Nat.toDigitsCore b f n ds = Nat.toDigitsCore b (n + 1) n ds := by
  intro n
  induction n using Nat.strong_induction_on with
  | _ n ih =>
    intro f ds hf
    match f, hf with
    | f + 1, hf =>
      simp only [Nat.toDigitsCore]
      by_cases h : n / b = 0
      · simp [h]
      · simp only [h, if_false]
        have hn0 : 0 < n := by
          rcases Nat.eq_zero_or_pos n with rfl | hp
          · simp [Nat.zero_div] at h
          · exact hp
        have hn : n / b < n := Nat.div_lt_self hn0 hb
        have h1 : n / b < f := by omega
        have h2 : n / b < n := hn
        rw [ih (n / b) hn f _ h1, ih (n / b) hn n _ h2]

/-- Every character produced by base-10 `Nat.toDigitsCore` is a digit. -/
theorem toDigitsCore_isDigit :
    ∀ (f n : Nat) (ds : List Char), (∀ c ∈ ds, c.isDigit = true) →
      ∀ c ∈ Nat.toDigitsCore 10 f n ds, c.isDigit = true := by
  intro f
  induction f with
  | zero => intro n ds hds; simpa [Nat.toDigitsCore] using hds
  | succ f ih =>
    intro n ds hds
    have hd : (Nat.digitChar (n % 10)).isDigit = true := by
      have : n % 10 < 10 := Nat.mod_lt _ (by omega)
      interval_cases h : n % 10 <;> decide
    simp only [Nat.toDigitsCore]
    by_cases h : n / 10 = 0
    · simp only [h, if_true]
      intro c hc
      rcases List.mem_cons.mp hc with rfl | hc
      · exact hd
      · exact hds c hc
    · simp only [h, if_false]
      apply ih
      intro c hc
      rcases List.mem_cons.mp hc with rfl | hc
      · exact hd
      · exact hds c hc

/-- Every character of the decimal representation of a number is a digit. -/
theorem repr_isDigit (n : Nat) : ∀ c ∈ (Nat.repr n).data, c.isDigit = true := by
  have h : (Nat.repr n).data = Nat.toDigits 10 n := rfl
  rw [h]
  exact toDigitsCore_isDigit (n + 1) n [] (by simp)

/-- Folding the decode step over the decimal digits of `n` recovers `n`. -/
theorem decode_toDigits :
    ∀ n : Nat, List.foldl decodeStep 0 (Nat.toDigits 10 n) = n := by
  intro n
  induction n using Nat.strong_induction_on with
  | _ n ih =>
    unfold Nat.toDigits
    simp only [Nat.toDigitsCore]
    by_cases h : n / 10 = 0
    · have hn : n < 10 := by omega
      simp only [h, if_true, List.foldl]
      have hv : (Nat.digitChar (n % 10)).toNat - 48 = n % 10 := by
        have : n % 10 < 10 := Nat.mod_lt _ (by omega)
        interval_cases hh : n % 10 <;> decide
      simp [decodeStep, hv]
      omega
    · simp only [h, if_false]
      have hn10 : n / 10 < n := Nat.div_lt_self (by omega) (by omega)
      rw [toDigitsCore_append 10 n (n / 10) [Nat.digitChar (n % 10)]]
      rw [toDigitsCore_fuel 10 (by omega) (n / 10) n [] hn10]
      rw [List.foldl_append]
      have hrec : List.foldl decodeStep 0
          (Nat.toDigitsCore 10 (n / 10 + 1) (n / 10) []) = n / 10 :=
        ih (n / 10) hn10
      rw [hrec]
      simp only [List.foldl, decodeStep]
      have hv : (Nat.digitChar (n % 10)).toNat - 48 = n % 10 := by
        have : n % 10 < 10 := Nat.mod_lt _ (by omega)
        interval_cases hh : n % 10 <;> decide
      rw [hv]
      omega

/-- The decimal representation of a number determines the number. -/
theorem Nat_repr_injective : Function.Injective Nat.repr := by
  intro n m h
  have h2 : Nat.toDigits 10 n = Nat.toDigits 10 m := by
    have hn : (Nat.repr n).data = Nat.toDigits 10 n := rfl
    have hm : (Nat.repr m).data = Nat.toDigits 10 m := rfl
    rw [← hn, ← hm, h]
  have h3 := congrArg (List.foldl decodeStep 0) h2
  rwa [decode_toDigits, decode_toDigits] at h3

/-- Splitting at a non-digit separator that follows a run of digits is
unambiguous. -/
theorem sep_split {a1 a2 r1 r2 : List Char}
    (h1 : ∀ c ∈ a1, c.isDigit = true) (h2 : ∀ c ∈ a2, c.isDigit = true)
    (h : a1 ++ ' ' :: r1 = a2 ++ ' ' :: r2) : a1 = a2 ∧ r1 = r2 := by
  induction a1 generalizing a2 with
  | nil =>
    cases a2 with
    | nil => simpa using h
    | cons c a2 =>
      exfalso
      rw [List.nil_append] at h
      have hc : (' ' : Char) = c := (List.cons.injEq _ _ _ _ ▸ h).1
      have hdig := h2 c (by simp)
      rw [← hc] at hdig
      exact absurd hdig (by decide)
  | cons c a1 ih =>
    cases a2 with
    | nil =>
      exfalso
      rw [List.nil_append] at h
      have hc : c = (' ' : Char) := (List.cons.injEq _ _ _ _ ▸ h).1
      have hdig := h1 c (by simp)
      rw [hc] at hdig
      exact absurd hdig (by decide)
    | cons c' a2 =>
      simp only [List.cons_append, List.cons.injEq] at h
      obtain ⟨rfl, h⟩ := h
      have hres := ih (fun x hx => h1 x (by simp [hx]))
        (fun x hx => h2 x (by simp [hx])) h
      exact ⟨by rw [hres.1], hres.2⟩

/-- The fixed-size array schema id determines the element id and the
length: the length's decimal digits contain no space, so the "; " separator
splits the interpolated string unambiguously. -/
theorem fixedArray_schema_id_inj {e1 e2 : String} {n1 n2 : Nat}
    (h : fixedArray_schema_id e1 n1 = fixedArray_schema_id e2 n2) :
    e1 = e2 ∧ n1 = n2 := by
  have hd := congrArg String.data h
  simp only [fixedArray_schema_id, String.data_append] at hd
  have hd2 := congrArg List.reverse hd
  simp only [List.reverse_append] at hd2
  simp only [List.reverse_cons, List.reverse_nil, List.nil_append,
    List.append_assoc, List.cons_append] at hd2
  injection hd2 with _ hd3
  have hsplit := sep_split
    (fun c hc => repr_isDigit n1 c (List.mem_reverse.mp hc))
    (fun c hc => repr_isDigit n2 c (List.mem_reverse.mp hc)) hd3
  have hn : n1 = n2 := by
    apply Nat_repr_injective
    apply String.ext
    have hrev := congrArg List.reverse hsplit.1
    simpa using hrev
  have he : e1 = e2 := by
    have h2 := hsplit.2
    injection h2 with _ h3
    have h4 := List.append_cancel_right h3
    apply String.ext
    have hrev := congrArg List.reverse h4
    simpa using hrev
  exact ⟨he, hn⟩

/-- The "last value wins" set schema id determines the element id. -/
theorem setLastValueWins_schema_id_inj {e1 e2 : String}
    (h : setLastValueWins_schema_id e1 = setLastValueWins_schema_id e2) :
    e1 = e2 := by
  have hd := congrArg String.data h
  simp only [setLastValueWins_schema_id, String.data_append] at hd
  have h1 := List.append_cancel_right hd
  have h2 := List.append_cancel_left h1
  exact String.ext h2

/-! The claims. -/

/-- C1: the claim asserts that any two flexible timespan bindings emitting
different documents have different `schema_id`s. The code violates this (and
the trait's own documented contract, source lines 113-117): the id depends
only on the `STRING` classification constant while the document also depends
on `SIGNED`. The binding (Duration, f64) is classified (SIGNED = false,
STRING = false) and (SystemTime, f64) is classified (SIGNED = true,
STRING = false); their documents differ — the unsigned one carries
`minimum = 0` on the numeric alternative, the signed one carries no
minimum — yet both ids are `"serde_with::FlexibleTimespan"`. -/
theorem claim_C1_timespan_flexible_schema_id_not_injective :
    timespanSchemaTarget TimespanTarget.duration TimespanFormat.f64
      = some (false, false) ∧
    timespanSchemaTarget TimespanTarget.systemTime TimespanFormat.f64
      = some (true, false) ∧
    timespanFlexible_schema_id false = "serde_with::FlexibleTimespan" ∧
    (∀ g : SchemaGenerator,
      (timespanFlexible_json_schema false false g).1
        ≠ (timespanFlexible_json_schema true false g).1) := by
  refine ⟨rfl, rfl, rfl, fun g h => ?_⟩
  have hmin := congrArg Schema.firstOneOfMinimum h
  simp [timespanFlexible_json_schema, flexible_timespan_schema,
    Schema.firstOneOfMinimum, Schema.oneOfAlts, Schema.numericMinimum,
    SchemaObject.withWriteOnly] at hmin

/-- C2: for every (target, wire format) pair classified by the
`TimespanSchemaTarget` lookup, the flexible timespan document is a "one of"
union of exactly two alternatives — one numeric, one string; the numeric
alternative is write-only exactly when the classification says the default
representation is a string, and the string alternative exactly otherwise;
the numeric alternative carries `minimum = 0` exactly when the quantity is
unsigned; and the adapter is not referenceable. -/
theorem claim_C2_flexible_timespan_document_shape
    (t : TimespanTarget) (f : TimespanFormat) (signed isString : Bool)
    (hclass : timespanSchemaTarget t f = some (signed, isString))
    (g : SchemaGenerator) :
    ∃ num str : Schema,
      ((timespanFlexible_json_schema signed isString g).1).oneOfAlts
        = some [num, str] ∧
      num.instanceKind = some InstanceType.number ∧
      str.instanceKind = some InstanceType.string ∧
      num.writeOnlyFlag = isString ∧
      str.writeOnlyFlag = !isString ∧
      num.numericMinimum = (if signed then none else some (0 : Rat)) ∧
      timespanFlexible_is_referenceable = false := by
  cases signed <;> cases isString <;>
    exact ⟨_, _, rfl, rfl, rfl, rfl, rfl, rfl, rfl⟩

/-- Witness for C2: the (Duration, u64) binding is classified
(SIGNED = false, STRING = false) and the document shape follows. -/
theorem claim_C2_witness :
    timespanSchemaTarget TimespanTarget.duration TimespanFormat.u64
      = some (false, false) ∧
    ∃ num str : Schema,
      ((timespanFlexible_json_schema false false {}).1).oneOfAlts
        = some [num, str] ∧
      num.instanceKind = some InstanceType.number ∧
      str.instanceKind = some InstanceType.string ∧
      num.writeOnlyFlag = false ∧
      str.writeOnlyFlag = !false ∧
      num.numericMinimum = (if false then none else some (0 : Rat)) ∧
      timespanFlexible_is_referenceable = false :=
  ⟨rfl, claim_C2_flexible_timespan_document_shape TimespanTarget.duration
    TimespanFormat.u64 false false rfl {}⟩

/-- C3: for every element adapter and compile-time length `n`, the
fixed-size array document is an array schema whose item schema is the
element adapter's subschema; when `n` fits in the generator's `u32` length
type, `minItems` and `maxItems` both equal `n`, otherwise `maxItems` is
absent and `minItems` is `u32::MAX`; the adapter is not referenceable. -/
theorem claim_C3_fixed_array_document_shape
    (sub : SchemaGenerator → Schema × SchemaGenerator)
    (n : Nat) (g : SchemaGenerator) :
    (fixedArray_json_schema sub n g).1.instanceKind
      = some InstanceType.array ∧
    (fixedArray_json_schema sub n g).1.arrayItems
      = some (SingleOrVec.single (sub g).1) ∧
    (fixedArray_json_schema sub n g).1.arrayMaxItems
      = (if n ≤ u32_MAX then some n else none) ∧
    (fixedArray_json_schema sub n g).1.arrayMinItems
      = (if n ≤ u32_MAX then some n else some u32_MAX) ∧
    (fixedArray_json_schema sub n g).2 = (sub g).2 ∧
    fixedArray_is_referenceable = false := by
  by_cases h : n ≤ u32_MAX <;>
    simp [fixedArray_json_schema, h, Schema.instanceKind, Schema.arrayItems,
      Schema.arrayMaxItems, Schema.arrayMinItems, fixedArray_is_referenceable]

/-- C4: the "last value wins" set document equals the underlying sequence
schema converted to an object, with every field preserved except that the
array validation's `unique_items` constraint is cleared; the adapter is not
referenceable. The element schema is universally quantified, so the
equality covers in particular element schemas that carry a unique-items
constraint. -/
theorem claim_C4_set_last_value_wins_clears_unique_items
    (elemSchema : SchemaGenerator → Schema × SchemaGenerator)
    (g : SchemaGenerator) :
    ∃ o' : SchemaObject,
      (setLastValueWins_json_schema elemSchema g).1 = Schema.obj o' ∧
      (o'.metadata = ((elemSchema g).1.into_object).metadata ∧
       o'.instance_type = ((elemSchema g).1.into_object).instance_type ∧
       o'.format = ((elemSchema g).1.into_object).format ∧
       o'.subschemas = ((elemSchema g).1.into_object).subschemas ∧
       o'.number = ((elemSchema g).1.into_object).number ∧
       o'.string = ((elemSchema g).1.into_object).string ∧
       o'.object = ((elemSchema g).1.into_object).object ∧
       o'.reference = ((elemSchema g).1.into_object).reference) ∧
      o'.array = ((elemSchema g).1.into_object).array.map
        (fun av => { av with unique_items := none }) ∧
      (setLastValueWins_json_schema elemSchema g).2 = (elemSchema g).2 ∧
      setLastValueWins_is_referenceable = false := by
  cases h : ((elemSchema g).1.into_object).array with
  | none =>
    refine ⟨(elemSchema g).1.into_object, ?_, ?_, ?_, ?_⟩ <;>
      simp [setLastValueWins_json_schema, h, setLastValueWins_is_referenceable]
  | some av =>
    refine ⟨{ (elemSchema g).1.into_object with
              array := some { av with unique_items := none } }, ?_, ?_, ?_, ?_⟩ <;>
      simp [setLastValueWins_json_schema, h, setLastValueWins_is_referenceable]

/-- C5: the proxy `WrapSchema<T, TA>` implements the host trait by pure
forwarding — each of its four operations returns the adapter's
corresponding value — and for every adapter defined through the
`forward_schema!` macro with forwarding target `F`, all four operations
equal `F`'s. -/
theorem claim_C5_proxy_pure_forwarding
    (ta : JsonSchemaAsImpl) (f : JsonSchemaImpl) :
    ((wrapSchemaImpl ta).schema_name = ta.schema_name ∧
     (wrapSchemaImpl ta).schema_id = ta.schema_id ∧
     (wrapSchemaImpl ta).is_referenceable = ta.is_referenceable ∧
     (wrapSchemaImpl ta).json_schema = ta.json_schema) ∧
    ((wrapSchemaImpl (forwardSchemaImpl f)).schema_name = f.schema_name ∧
     (wrapSchemaImpl (forwardSchemaImpl f)).schema_id = f.schema_id ∧
     (wrapSchemaImpl (forwardSchemaImpl f)).is_referenceable
       = f.is_referenceable ∧
     (wrapSchemaImpl (forwardSchemaImpl f)).json_schema = f.json_schema) :=
  ⟨⟨rfl, rfl, rfl, rfl⟩, rfl, rfl, rfl, rfl⟩

/-- C6: for a self-referential binding declared referenceable, once its
identity is registered in the generator's definitions table every request
returns the pointer-style reference immediately with the table unchanged and
independently of the remaining fuel (no synthesis is re-invoked); and from a
table not containing the identity, the request terminates with fuel 2 — one
synthesis invocation — and the definition recorded for the identity embeds
the self-reference as a reference rather than a re-expansion. -/
theorem claim_C6_registered_identity_short_circuits
    {β : Type} (env : BindingEnv β) (b : β) (g : SchemaGenerator)
    (href : env.referenceable b = true)
    (hself : env.subRequests b = [b]) :
    ((g.definitions.lookup (env.name b)).isSome = true →
      ∀ fuel : Nat,
        subschemaFor env (fuel + 1) b g
          = some (refSchemaFor g (env.name b), g)) ∧
    (g.definitions.lookup (env.name b) = none →
      ∃ g' : SchemaGenerator,
        subschemaFor env 2 b g = some (refSchemaFor g (env.name b), g') ∧
        g'.definitions.lookup (env.name b)
          = some (env.build b [refSchemaFor g (env.name b)])) := by
  constructor
  · intro hreg fuel
    simp [subschemaFor, href, hreg]
  · intro hunreg
    refine ⟨{ g with definitions :=
        (env.name b, env.build b [refSchemaFor g (env.name b)])
          :: (env.name b, Schema.bool false) :: g.definitions }, ?_, ?_⟩
    · simp [subschemaFor, synthSubschemas, href, hself, hunreg, refSchemaFor]
    · simp [List.lookup]

/-- Witness for C6: the concrete self-referential binding `Node`. With its
identity pre-registered the request returns the reference at once; from the
empty table the request terminates and records a definition whose nested
self-reference is the pointer-style reference. -/
theorem claim_C6_witness :
    (subschemaFor recBindingEnv 1 RecBinding.node
        { definitions := [("Node", Schema.bool true)] }
      = some (refSchemaFor { definitions := [("Node", Schema.bool true)] }
          "Node",
        { definitions := [("Node", Schema.bool true)] })) ∧
    (∃ g' : SchemaGenerator,
      subschemaFor recBindingEnv 2 RecBinding.node {}
        = some (refSchemaFor {} "Node", g') ∧
      g'.definitions.lookup "Node"
        = some (recBindingEnv.build RecBinding.node
            [refSchemaFor {} "Node"])) :=
  ⟨(claim_C6_registered_identity_short_circuits recBindingEnv RecBinding.node
      { definitions := [("Node", Schema.bool true)] } rfl rfl).1 rfl 0,
   (claim_C6_registered_identity_short_circuits recBindingEnv RecBinding.node
      {} rfl rfl).2 rfl⟩

/-- C7: the bytes-or-string document is a 2-alternative "any of" union whose
first alternative is exactly the byte-array schema requested from the
generator and whose second is a string schema marked write-only; provided
the byte-array schema carries no write-only flag (as the external `Vec<u8>`
schema does), exactly one alternative is write-only; the adapter is not
referenceable and the generator state is whatever the byte-array request
left it. -/
theorem claim_C7_bytes_or_string_union
    (sub : SchemaGenerator → Schema × SchemaGenerator) (g : SchemaGenerator)
    (h : ((sub g).1).writeOnlyFlag = false) :
    ∃ bytes str : Schema,
      ((bytesOrString_json_schema sub g).1).anyOfAlts = some [bytes, str] ∧
      bytes = (sub g).1 ∧
      bytes.writeOnlyFlag = false ∧
      str.instanceKind = some InstanceType.string ∧
      str.writeOnlyFlag = true ∧
      (bytesOrString_json_schema sub g).2 = (sub g).2 ∧
      bytesOrString_is_referenceable = false :=
  ⟨(sub g).1, _, rfl, rfl, h, rfl, rfl, rfl, rfl⟩

/-- Witness for C7: instantiating the generator request with the modelled
external byte-array schema, which carries no write-only flag. -/
theorem claim_C7_witness :
    ((fun g => (vecU8Schema, g)) ({} : SchemaGenerator) |>.1).writeOnlyFlag
      = false ∧
    ∃ bytes str : Schema,
      ((bytesOrString_json_schema (fun g => (vecU8Schema, g)) {}).1).anyOfAlts
        = some [bytes, str] ∧
      bytes = ((fun g => (vecU8Schema, g)) ({} : SchemaGenerator)).1 ∧
      bytes.writeOnlyFlag = false ∧
      str.instanceKind = some InstanceType.string ∧
      str.writeOnlyFlag = true ∧
      (bytesOrString_json_schema (fun g => (vecU8Schema, g)) {}).2
        = ((fun g => (vecU8Schema, g)) ({} : SchemaGenerator)).2 ∧
      bytesOrString_is_referenceable = false :=
  ⟨rfl, claim_C7_bytes_or_string_union (fun g => (vecU8Schema, g)) {} rfl⟩

/-- C8: the strict boolean-as-integer document has instance kind integer
with inclusive minimum 0 and maximum 1; the flexible variant has instance
kind integer and no numeric validation at all; neither is referenceable. -/
theorem claim_C8_bool_from_int_documents (g : SchemaGenerator) :
    ((boolFromIntStrict_json_schema g).1.instanceKind
       = some InstanceType.integer ∧
     (boolFromIntStrict_json_schema g).1.numericMinimum = some (0 : Rat) ∧
     (boolFromIntStrict_json_schema g).1.numericMaximum = some (1 : Rat) ∧
     boolFromIntStrict_is_referenceable = false) ∧
    ((boolFromIntFlexible_json_schema g).1.instanceKind
       = some InstanceType.integer ∧
     (boolFromIntFlexible_json_schema g).1.numberValidation = none ∧
     boolFromIntFlexible_is_referenceable = false) :=
  ⟨⟨rfl, rfl, rfl, rfl⟩, rfl, rfl, rfl⟩

/-- C9: the composite adapters build their schema ids by interpolating their
sub-adapters' ids (and, for arrays, the length), and these ids are injective
in those components: two array bindings differing in element id or length,
or two "last value wins" set bindings differing in element id, get different
ids. -/
theorem claim_C9_composite_schema_ids_injective
    (e1 e2 : String) (n1 n2 : Nat) :
    fixedArray_schema_id e1 n1 = "[" ++ e1 ++ "; " ++ Nat.repr n1 ++ "]" ∧
    setLastValueWins_schema_id e1
      = "serde_with::SetLastValueWins<" ++ e1 ++ ">" ∧
    (e1 ≠ e2 ∨ n1 ≠ n2 →
      fixedArray_schema_id e1 n1 ≠ fixedArray_schema_id e2 n2) ∧
    (e1 ≠ e2 →
      setLastValueWins_schema_id e1 ≠ setLastValueWins_schema_id e2) := by
  refine ⟨rfl, rfl, ?_, ?_⟩
  · intro hne h
    rcases fixedArray_schema_id_inj h with ⟨he, hn⟩
    rcases hne with hne | hne
    · exact hne he
    · exact hne hn
  · intro hne h
    exact hne (setLastValueWins_schema_id_inj h)

/-- Witness for C9: two concrete bindings differing in element id and
length get different array ids, and two differing element ids get different
set ids. -/
theorem claim_C9_witness :
    ("A" ≠ "B" ∨ (2 : Nat) ≠ 3) ∧
    fixedArray_schema_id "A" 2 ≠ fixedArray_schema_id "B" 3 ∧
    "A" ≠ "B" ∧
    setLastValueWins_schema_id "A" ≠ setLastValueWins_schema_id "B" :=
  ⟨Or.inl (by decide),
   (claim_C9_composite_schema_ids_injective "A" "B" 2 3).2.2.1
     (Or.inl (by decide)),
   by decide,
   (claim_C9_composite_schema_ids_injective "A" "B" 2 3).2.2.2 (by decide)⟩

/-- C10: the flexible timespan and both boolean-as-integer `json_schema`
implementations neither read from nor write to the generator: the state
they return is the argument unchanged, and the document is the same for
every generator argument. -/
theorem claim_C10_json_schema_generator_frame
    (signed isString : Bool) (g g' : SchemaGenerator) :
    ((timespanFlexible_json_schema signed isString g).2 = g ∧
     (timespanFlexible_json_schema signed isString g).1
       = (timespanFlexible_json_schema signed isString g').1) ∧
    ((boolFromIntStrict_json_schema g).2 = g ∧
     (boolFromIntStrict_json_schema g).1
       = (boolFromIntStrict_json_schema g').1) ∧
    ((boolFromIntFlexible_json_schema g).2 = g ∧
     (boolFromIntFlexible_json_schema g).1
       = (boolFromIntFlexible_json_schema g').1) :=
  ⟨⟨rfl, rfl⟩, ⟨rfl, rfl⟩, rfl, rfl⟩
